import Mathlib

/-!
Verification of the vox8 Python SDK client (`src/vox8/client.py`).

The client is shallowly embedded: the `Vox8Client` object becomes a Lean
structure holding the immutable configuration together with the two mutable
fields `_ws` and `_session_id`; each method becomes a pure function from the
client state (plus explicit transport-outcome parameters standing for the
possible success/failure of the underlying websocket operations) to the new
client state, the list of JSON messages handed to the transport, and an
`Except` result mirroring Python exceptions.
-/

/-- JSON scalar values, enough to express every field the client reads or
writes (the client only ever compares fields to strings and forwards whole
events). -/
inductive JVal where
  | jnull
  | jstr (s : String)
  | jnum (n : Int)
  | jbool (b : Bool)
deriving DecidableEq, Repr

/-- A JSON object, as the ordered field list produced by Python dict insertion
order; used both for outbound messages (`json.dumps` of a dict) and inbound
events (`json.loads` producing a dict). -/
abbrev JObj := List (String × JVal)

/-- Python `dict.get(key)`: the value at `key`, or `None` when absent. -/
def dictGet (o : JObj) (k : String) : Option JVal :=
  (o.find? (fun p => p.1 == k)).map (fun p => p.2)

/-- Python truthiness of an `Optional[str]`: `None` and `""` are falsy. -/
def pyTruthy : Option String → Bool
  | none => false
  | some s => s ≠ ""

/-- The state of an underlying websocket connection object, reduced to the one
attribute the client reads: `state.name`. -/
structure WSConn where
  stateName : String
deriving DecidableEq, Repr

/-- Python exceptions raised by the client or the transport. -/
inductive PyError where
  | valueError (msg : String)
  | runtimeError (msg : String)
  | transportError (msg : String)
deriving DecidableEq, Repr

/-- The `Vox8Client` object: immutable configuration (set in `__init__`) plus
the mutable `_ws` and `_session_id` fields. Callbacks are modelled by whether
they are registered; invocations are reported in operation results. -/
structure Vox8Client where
  api_key : Option String
  session_token : Option String
  target_language : String
  source_language : String
  voice_mode : String
  ws_url : String
  on_transcript : Bool
  on_audio : Bool
  on_error : Bool
  _ws : Option WSConn
  _session_id : Option JVal
deriving DecidableEq, Repr

/-- Which user callback an event dispatch invoked. -/
inductive CbKind where
  | transcript
  | audio
  | error
deriving DecidableEq, Repr

/-- Constructor `__init__`: raises `ValueError` when neither `api_key` nor
`session_token` is truthy, otherwise produces a client with `_ws = None` and
`_session_id = None`. Parameters appear in the Python order; Python defaults
are `source_language="auto"`, `voice_mode="match"`,
`ws_url="wss://api.vox8.io/v1/translate"`, callbacks unregistered. -/
def Vox8Client.init (target_language : String) (api_key session_token : Option String)
    (source_language voice_mode ws_url : String)
    (on_transcript on_audio on_error : Bool) : Except PyError Vox8Client :=
  if pyTruthy api_key = false ∧ pyTruthy session_token = false then
    .error (.valueError "Either api_key or session_token must be provided")
  else
    .ok { api_key := api_key
          session_token := session_token
          target_language := target_language
          source_language := source_language
          voice_mode := voice_mode
          ws_url := ws_url
          on_transcript := on_transcript
          on_audio := on_audio
          on_error := on_error
          _ws := none
          _session_id := none }

/-- The constructor applied at the Python default values of the optional
configuration parameters. -/
def Vox8Client.initDefaults (target_language : String)
    (api_key session_token : Option String) : Except PyError Vox8Client :=
  Vox8Client.init target_language api_key session_token "auto" "match"
    "wss://api.vox8.io/v1/translate" false false false

/-- Property `is_connected`: `self._ws is not None and self._ws.state.name == "OPEN"`. -/
def Vox8Client.is_connected (c : Vox8Client) : Bool :=
  match c._ws with
  | none => false
  | some ws => ws.stateName == "OPEN"

/-- Property `session_id`: returns `self._session_id`. -/
def Vox8Client.session_id (c : Vox8Client) : Option JVal :=
  c._session_id

/-- The `session_start` dict built inside `connect`, in Python insertion
order: the five fixed fields, then `session_token` when truthy, else
`api_key` when truthy, else no credential field. -/
def sessionStartMsg (c : Vox8Client) : JObj :=
  [("type", JVal.jstr "session_start"),
   ("target_language", JVal.jstr c.target_language),
   ("source_language", JVal.jstr c.source_language),
   ("voice_mode", JVal.jstr c.voice_mode),
   ("audio_format", JVal.jstr "pcm_s16le")]
  ++ (if pyTruthy c.session_token then
        [("session_token", JVal.jstr (c.session_token.getD ""))]
      else if pyTruthy c.api_key then
        [("api_key", JVal.jstr (c.api_key.getD ""))]
      else [])

/-- Method `connect`: raises `RuntimeError("Already connected")` when `_ws` is not
`None`; otherwise opens the transport (`openR` is the outcome of
`websockets.connect`, which on failure propagates with `_ws` unchanged),
stores the handle, and sends the `session_start` message (`sendOk` is the
outcome of `self._ws.send`; on failure the exception propagates after the
handle was already stored). Returns the new client state, the messages sent,
and the call result. -/
def Vox8Client.connect (c : Vox8Client) (openR : Except PyError WSConn)
    (sendOk : Bool) : Vox8Client × List JObj × Except PyError Unit :=
  if c._ws.isSome then
    (c, [], .error (.runtimeError "Already connected"))
  else
    match openR with
    | .error e => (c, [], .error e)
    | .ok ws =>
      let c' := { c with _ws := some ws }
      if sendOk then
        (c', [sessionStartMsg c'], .ok ())
      else
        (c', [], .error (.transportError "send failed"))

/-- Method `send_audio`: raises `RuntimeError("Not connected")` when `_ws` is `None`;
otherwise sends `{"type": "audio", "audio": audio_base64}`. -/
def Vox8Client.send_audio (c : Vox8Client) (audio_base64 : String)
    (sendOk : Bool) : Vox8Client × List JObj × Except PyError Unit :=
  if c._ws.isNone then
    (c, [], .error (.runtimeError "Not connected"))
  else if sendOk then
    (c, [[("type", JVal.jstr "audio"), ("audio", JVal.jstr audio_base64)]], .ok ())
  else
    (c, [], .error (.transportError "send failed"))

/-- Method `send_keepalive`: raises `RuntimeError("Not connected")` when `_ws` is
`None`; otherwise sends `{"type": "keepalive"}`. -/
def Vox8Client.send_keepalive (c : Vox8Client)
    (sendOk : Bool) : Vox8Client × List JObj × Except PyError Unit :=
  if c._ws.isNone then
    (c, [], .error (.runtimeError "Not connected"))
  else if sendOk then
    (c, [[("type", JVal.jstr "keepalive")]], .ok ())
  else
    (c, [], .error (.transportError "send failed"))

/-- Method `disconnect`: no-op when `_ws` is `None`; otherwise sends
`{"type": "session_end"}` then closes the connection, with both statements
inside a `try` whose `finally` clears `_ws` and `_session_id`. The third
component records whether `close` was invoked; `sendOk`/`closeOk` are the
outcomes of the two transport calls, a failure propagating after the
`finally` block has run. -/
def Vox8Client.disconnect (c : Vox8Client) (sendOk closeOk : Bool) :
    Vox8Client × List JObj × Bool × Except PyError Unit :=
  match c._ws with
  | none => (c, [], false, .ok ())
  | some _ =>
    let cleared := { c with _ws := none, _session_id := none }
    if sendOk = false then
      (cleared, [], false, .error (.transportError "send failed"))
    else if closeOk = false then
      (cleared, [[("type", JVal.jstr "session_end")]], true,
        .error (.transportError "close failed"))
    else
      (cleared, [[("type", JVal.jstr "session_end")]], true, .ok ())

/-- Method `_handle_event`: dispatches one parsed inbound event on its `type` field,
returning the new client state and the callback invocations (callback kind
paired with the full event payload) it performed. -/
def Vox8Client.handle_event (c : Vox8Client) (event : JObj) :
    Vox8Client × List (CbKind × JObj) :=
  let event_type := dictGet event "type"
  if event_type = some (JVal.jstr "session_ready") then
    ({ c with _session_id := dictGet event "session_id" }, [])
  else if event_type = some (JVal.jstr "transcript") ∧ c.on_transcript = true then
    (c, [(CbKind.transcript, event)])
  else if event_type = some (JVal.jstr "audio") ∧ c.on_audio = true then
    (c, [(CbKind.audio, event)])
  else if event_type = some (JVal.jstr "error") ∧ c.on_error = true then
    (c, [(CbKind.error, event)])
  else
    (c, [])

/-- Method `listen`: raises `RuntimeError("Not connected")` when `_ws` is `None`;
otherwise iterates over the inbound messages (here: an explicit finite list of
already-parsed events) and dispatches each through `_handle_event`,
accumulating the callback invocations. -/
def Vox8Client.listen (c : Vox8Client) (events : List JObj) :
    Vox8Client × List (CbKind × JObj) × Except PyError Unit :=
  if c._ws.isNone then
    (c, [], .error (.runtimeError "Not connected"))
  else
    let r := events.foldl
      (fun (acc : Vox8Client × List (CbKind × JObj)) e =>
        let s := acc.1.handle_event e
        (s.1, acc.2 ++ s.2)) (c, [])
    (r.1, r.2, .ok ())

/-- Environment transition, not client code: the remote peer (or the network)
closing the underlying connection flips the websocket object's `state.name`
away from `"OPEN"`; the client's `_ws` reference itself is untouched. -/
def remoteClose (c : Vox8Client) : Vox8Client :=
  match c._ws with
  | none => c
  | some ws => { c with _ws := some { ws with stateName := "CLOSED" } }

/-!
Reachable client states. `Reach c f` says the client state `c` arises from a
freshly constructed client by some sequence of API calls (with arbitrary
transport outcomes), inbound events dispatched while a handle exists, and
remote closes; the ghost flag `f` records whether a `session_ready` event has
been dispatched.
-/

/-- Reachability of a client state under every operation the SDK exposes and
every transport behaviour, with a ghost flag tracking receipt of a
`session_ready` event. -/
inductive Reach : Vox8Client → Bool → Prop where
  | construct (tl : String) (ak st : Option String) (sl vm url : String)
      (ont ona one : Bool) (c : Vox8Client) :
      Vox8Client.init tl ak st sl vm url ont ona one = .ok c → Reach c false
  | connectStep (c : Vox8Client) (f : Bool) (openR : Except PyError WSConn)
      (so : Bool) : Reach c f → Reach (c.connect openR so).1 f
  | sendAudioStep (c : Vox8Client) (f : Bool) (a : String) (so : Bool) :
      Reach c f → Reach (c.send_audio a so).1 f
  | keepaliveStep (c : Vox8Client) (f : Bool) (so : Bool) :
      Reach c f → Reach (c.send_keepalive so).1 f
  | disconnectStep (c : Vox8Client) (f : Bool) (so co : Bool) :
      Reach c f → Reach (c.disconnect so co).1 f
  | recvStep (c : Vox8Client) (f : Bool) (e : JObj) :
      Reach c f → c._ws.isSome = true →
      Reach (c.handle_event e).1
        (f || (dictGet e "type" == some (JVal.jstr "session_ready")))
  | remoteCloseStep (c : Vox8Client) (f : Bool) :
      Reach c f → Reach (remoteClose c) f

/-- A concrete client as constructed in the repository tests:
`Vox8Client(api_key="vox8_test_key", target_language="es")`. -/
def cKey : Vox8Client :=
  { api_key := some "vox8_test_key", session_token := none,
    target_language := "es", source_language := "auto", voice_mode := "match",
    ws_url := "wss://api.vox8.io/v1/translate",
    on_transcript := false, on_audio := false, on_error := false,
    _ws := none, _session_id := none }

/-- A websocket handle whose transport state is `OPEN`. -/
def wsOpen : WSConn := { stateName := "OPEN" }

/-- The client `cKey` after a successful `connect`. -/
def cConnected : Vox8Client := { cKey with _ws := some wsOpen }

/-- A concrete `session_ready` inbound event carrying a session id. -/
def eReady : JObj :=
  [("type", JVal.jstr "session_ready"), ("session_id", JVal.jstr "abc123")]

/-- A concrete `session_ready` inbound event with no `session_id` field. -/
def eReadyNoId : JObj := [("type", JVal.jstr "session_ready")]

/-- The client `cConnected` after dispatching `eReady`. -/
def cReady : Vox8Client :=
  { cKey with _ws := some wsOpen, _session_id := some (JVal.jstr "abc123") }

/-- A websocket handle whose transport state is `CLOSED`. -/
def wsClosed : WSConn := { stateName := "CLOSED" }

/-- The client `cReady` after the remote peer closed the underlying connection. -/
def cClosedPeer : Vox8Client := { cReady with _ws := some wsClosed }

/-- Helper: a successful `__init__` yields exactly the expected structure and
implies at least one truthy credential. -/
theorem init_ok_iff (tl : String) (ak st : Option String) (sl vm url : String)
    (ont ona one : Bool) (c : Vox8Client) :
    Vox8Client.init tl ak st sl vm url ont ona one = .ok c ↔
      ((pyTruthy ak = true ∨ pyTruthy st = true) ∧
        c = { api_key := ak, session_token := st, target_language := tl,
              source_language := sl, voice_mode := vm, ws_url := url,
              on_transcript := ont, on_audio := ona, on_error := one,
              _ws := none, _session_id := none }) := by
  unfold Vox8Client.init
  split
  · rename_i hcond
    constructor
    · intro h
      simp at h
    · rintro ⟨hor, -⟩
      rcases hor with h | h
      · simp [hcond.1] at h
      · simp [hcond.2] at h
  · rename_i hcond
    constructor
    · intro h
      refine ⟨?_, (Except.ok.inj h).symm⟩
      rcases Bool.eq_false_or_eq_true (pyTruthy ak) with hak | hak
      · exact Or.inl hak
      · rcases Bool.eq_false_or_eq_true (pyTruthy st) with hst | hst
        · exact Or.inr hst
        · exact absurd ⟨hak, hst⟩ hcond
    · rintro ⟨-, rfl⟩
      rfl

/-- Helper: `send_audio` never changes the client state. -/
theorem send_audio_state (c : Vox8Client) (a : String) (so : Bool) :
    (c.send_audio a so).1 = c := by
  unfold Vox8Client.send_audio
  split
  · rfl
  · split <;> rfl

/-- Helper: `send_keepalive` never changes the client state. -/
theorem send_keepalive_state (c : Vox8Client) (so : Bool) :
    (c.send_keepalive so).1 = c := by
  unfold Vox8Client.send_keepalive
  split
  · rfl
  · split <;> rfl

/-- Helper: `disconnect` leaves the state unchanged (no handle) or fully
cleared (handle present). -/
theorem disconnect_state (c : Vox8Client) (so co : Bool) :
    (c.disconnect so co).1 = c ∨
      (c.disconnect so co).1 = { c with _ws := none, _session_id := none } := by
  unfold Vox8Client.disconnect
  split
  · exact Or.inl rfl
  · right
    split
    · rfl
    · split <;> rfl

/-- Helper: `connect` leaves the state unchanged or, starting from a null
handle, stores the opened handle and changes nothing else. -/
theorem connect_state (c : Vox8Client) (openR : Except PyError WSConn)
    (so : Bool) :
    (c.connect openR so).1 = c ∨
      (c._ws = none ∧ ∃ ws, (c.connect openR so).1 = { c with _ws := some ws }) := by
  cases hws : c._ws with
  | some ws0 => exact Or.inl (by simp [Vox8Client.connect, hws])
  | none =>
    cases openR with
    | error e => exact Or.inl (by simp [Vox8Client.connect, hws])
    | ok ws =>
      right
      refine ⟨rfl, ws, ?_⟩
      cases so <;> simp [Vox8Client.connect, hws]

/-- Helper: `_handle_event` either performs the `session_ready` assignment or
leaves the state unchanged. -/
theorem handle_event_state (c : Vox8Client) (e : JObj) :
    (dictGet e "type" = some (JVal.jstr "session_ready") ∧
      (c.handle_event e).1 = { c with _session_id := dictGet e "session_id" }) ∨
    (dictGet e "type" ≠ some (JVal.jstr "session_ready") ∧
      (c.handle_event e).1 = c) := by
  by_cases h : dictGet e "type" = some (JVal.jstr "session_ready")
  · exact Or.inl ⟨h, by simp [Vox8Client.handle_event, h]⟩
  · refine Or.inr ⟨h, ?_⟩
    simp only [Vox8Client.handle_event]
    rw [if_neg h]
    split
    · rfl
    · split
      · rfl
      · split <;> rfl

/-- Helper: the freshly constructed test client is reachable. -/
theorem reach_cKey : Reach cKey false :=
  Reach.construct "es" (some "vox8_test_key") none "auto" "match"
    "wss://api.vox8.io/v1/translate" false false false cKey rfl

/-- Helper: the connected test client is reachable. -/
theorem reach_cConnected : Reach cConnected false := by
  have h := Reach.connectStep cKey false (.ok wsOpen) true reach_cKey
  have e : (cKey.connect (.ok wsOpen) true).1 = cConnected := by decide
  rwa [e] at h

/-- Helper: the test client that has received `session_ready` is reachable,
with the ghost flag set. -/
theorem reach_cReady : Reach cReady true := by
  have h := Reach.recvStep cConnected false eReady reach_cConnected (by decide)
  have e1 : (cConnected.handle_event eReady).1 = cReady := by decide
  have e2 : (false || (dictGet eReady "type" == some (JVal.jstr "session_ready")))
      = true := by decide
  rwa [e1, e2] at h

/-- Helper: the state after the remote peer closes the connection underneath
the ready client is reachable. -/
theorem reach_cClosedPeer : Reach cClosedPeer true := by
  have h := Reach.remoteCloseStep cReady true reach_cReady
  have e : remoteClose cReady = cClosedPeer := by decide
  rwa [e] at h

/-- C1: for every client produced by the constructor (whose handle is null), a
successful `connect` sends exactly one message, of type `session_start`, whose
fields are exactly `type`, the configured `target_language`,
`source_language`, `voice_mode`, the fixed `audio_format` `"pcm_s16le"`, and
exactly one credential field — `session_token` when truthy (taking precedence
over `api_key`), otherwise `api_key`. -/
theorem connect_sends_one_session_start
    (tl sl vm url : String) (ak st : Option String) (ont ona one : Bool)
    (c : Vox8Client) (ws : WSConn)
    (hc : Vox8Client.init tl ak st sl vm url ont ona one = .ok c) :
    (c.connect (.ok ws) true).2.1 =
      [[("type", JVal.jstr "session_start"),
        ("target_language", JVal.jstr tl),
        ("source_language", JVal.jstr sl),
        ("voice_mode", JVal.jstr vm),
        ("audio_format", JVal.jstr "pcm_s16le")] ++
       (if pyTruthy st then [("session_token", JVal.jstr (st.getD ""))]
        else [("api_key", JVal.jstr (ak.getD ""))])] ∧
    (c.connect (.ok ws) true).2.2 = .ok () := by
  obtain ⟨hcred, rfl⟩ := (init_ok_iff tl ak st sl vm url ont ona one c).mp hc
  refine ⟨?_, by simp [Vox8Client.connect]⟩
  rcases Bool.eq_false_or_eq_true (pyTruthy st) with hst | hst
  · simp [Vox8Client.connect, sessionStartMsg, hst]
  · have hak : pyTruthy ak = true := by
      rcases hcred with hak | hst2
      · exact hak
      · simp [hst] at hst2
    simp [Vox8Client.connect, sessionStartMsg, hst, hak]

/-- C1 witness: the test-suite configuration, evaluated concretely. -/
theorem connect_sends_one_session_start_witness :
    Vox8Client.init "es" (some "vox8_test_key") none "auto" "match"
        "wss://api.vox8.io/v1/translate" false false false = .ok cKey ∧
    ((cKey.connect (.ok wsOpen) true).2.1 =
      [[("type", JVal.jstr "session_start"),
        ("target_language", JVal.jstr "es"),
        ("source_language", JVal.jstr "auto"),
        ("voice_mode", JVal.jstr "match"),
        ("audio_format", JVal.jstr "pcm_s16le")] ++
       (if pyTruthy (none : Option String) then
          [("session_token", JVal.jstr ((none : Option String).getD ""))]
        else [("api_key", JVal.jstr ((some "vox8_test_key" : Option String).getD ""))])] ∧
     (cKey.connect (.ok wsOpen) true).2.2 = .ok ()) :=
  ⟨rfl, connect_sends_one_session_start "es" "auto" "match"
      "wss://api.vox8.io/v1/translate" (some "vox8_test_key") none
      false false false cKey wsOpen rfl⟩

/-- C2: construction fails with the configuration `ValueError` iff both
credentials are absent or empty; with at least one truthy credential it
succeeds, and a failing construction produces no client (the error result
carries none). -/
theorem init_fails_iff_no_credentials
    (tl sl vm url : String) (ak st : Option String) (ont ona one : Bool) :
    ((∃ m, Vox8Client.init tl ak st sl vm url ont ona one = .error (.valueError m)) ↔
      (pyTruthy ak = false ∧ pyTruthy st = false)) ∧
    ((pyTruthy ak = true ∨ pyTruthy st = true) →
      ∃ c, Vox8Client.init tl ak st sl vm url ont ona one = .ok c) := by
  constructor
  · constructor
    · rintro ⟨m, hm⟩
      by_cases h : pyTruthy ak = false ∧ pyTruthy st = false
      · exact h
      · unfold Vox8Client.init at hm
        rw [if_neg h] at hm
        simp at hm
    · intro h
      refine ⟨"Either api_key or session_token must be provided", ?_⟩
      unfold Vox8Client.init
      rw [if_pos h]
  · intro h
    exact ⟨_, (init_ok_iff tl ak st sl vm url ont ona one _).mpr ⟨h, rfl⟩⟩

/-- C2 witness: an api-key-only construction succeeds; a credential-free
construction fails with the configuration error. -/
theorem init_fails_iff_no_credentials_witness :
    ((∃ m, Vox8Client.init "es" none none "auto" "match"
        "wss://api.vox8.io/v1/translate" false false false = .error (.valueError m)) ↔
      (pyTruthy (none : Option String) = false ∧
       pyTruthy (none : Option String) = false)) ∧
    ((pyTruthy (some "vox8_test_key") = true ∨ pyTruthy (none : Option String) = true) →
      ∃ c, Vox8Client.init "es" (some "vox8_test_key") none "auto" "match"
        "wss://api.vox8.io/v1/translate" false false false = .ok c) :=
  ⟨(init_fails_iff_no_credentials "es" "auto" "match"
      "wss://api.vox8.io/v1/translate" none none false false false).1,
   (init_fails_iff_no_credentials "es" "auto" "match"
      "wss://api.vox8.io/v1/translate" (some "vox8_test_key") none false false false).2⟩

/-- C3: whatever the outcome of the `session_end` send and of the close,
`disconnect` leaves `_ws` and `_session_id` cleared whenever a handle existed
at entry; with no handle it is a no-op that raises no error, sends nothing,
invokes no close, and changes no state. -/
theorem disconnect_always_clears (c : Vox8Client) (sendOk closeOk : Bool) :
    (c._ws.isSome = true →
      ((c.disconnect sendOk closeOk).1._ws = none ∧
       (c.disconnect sendOk closeOk).1._session_id = none)) ∧
    (c._ws = none → c.disconnect sendOk closeOk = (c, [], false, .ok ())) := by
  constructor
  · intro h
    cases hws : c._ws with
    | none => rw [hws] at h; simp at h
    | some ws =>
      cases sendOk <;> cases closeOk <;> simp [Vox8Client.disconnect, hws]
  · intro h
    simp [Vox8Client.disconnect, h]

/-- C3 witness: disconnecting the ready client with a failing send still
clears both mutable fields. -/
theorem disconnect_always_clears_witness :
    cReady._ws.isSome = true ∧
    ((cReady.disconnect false true).1._ws = none ∧
     (cReady.disconnect false true).1._session_id = none) :=
  ⟨by decide, (disconnect_always_clears cReady false true).1 (by decide)⟩

/-- C4: `_handle_event` dispatch: `session_ready` stores the event's
`session_id`; `transcript`/`audio`/`error` invoke exactly the matching
callback with the full event payload when registered and do nothing when not;
any other type changes no state and invokes no callback. -/
theorem handle_event_dispatch (c : Vox8Client) (e : JObj) :
    (dictGet e "type" = some (JVal.jstr "session_ready") →
      c.handle_event e = ({ c with _session_id := dictGet e "session_id" }, [])) ∧
    (dictGet e "type" = some (JVal.jstr "transcript") →
      c.handle_event e =
        (c, if c.on_transcript then [(CbKind.transcript, e)] else [])) ∧
    (dictGet e "type" = some (JVal.jstr "audio") →
      c.handle_event e = (c, if c.on_audio then [(CbKind.audio, e)] else [])) ∧
    (dictGet e "type" = some (JVal.jstr "error") →
      c.handle_event e = (c, if c.on_error then [(CbKind.error, e)] else [])) ∧
    ((dictGet e "type" ≠ some (JVal.jstr "session_ready") ∧
      dictGet e "type" ≠ some (JVal.jstr "transcript") ∧
      dictGet e "type" ≠ some (JVal.jstr "audio") ∧
      dictGet e "type" ≠ some (JVal.jstr "error")) →
      c.handle_event e = (c, [])) := by
  refine ⟨?_, ?_, ?_, ?_, ?_⟩
  · intro h
    simp [Vox8Client.handle_event, h]
  · intro h
    cases hcb : c.on_transcript <;> simp [Vox8Client.handle_event, h, hcb]
  · intro h
    cases hcb : c.on_audio <;> simp [Vox8Client.handle_event, h, hcb]
  · intro h
    cases hcb : c.on_error <;> simp [Vox8Client.handle_event, h, hcb]
  · rintro ⟨h1, h2, h3, h4⟩
    simp [Vox8Client.handle_event, h1, h2, h3, h4]

/-- C4 witness: dispatching the concrete `session_ready` event on the
connected client stores its session id and invokes no callback. -/
theorem handle_event_dispatch_witness :
    dictGet eReady "type" = some (JVal.jstr "session_ready") ∧
    cConnected.handle_event eReady =
      ({ cConnected with _session_id := dictGet eReady "session_id" }, []) :=
  ⟨by decide, (handle_event_dispatch cConnected eReady).1 (by decide)⟩

/-- C5: with no connection handle, `send_audio`, `send_keepalive` and `listen`
fail synchronously with the not-connected error, send nothing and change no
state; with a handle present, `connect` fails synchronously with the
already-connected error, sends nothing and changes no state. -/
theorem state_precondition_errors
    (c : Vox8Client) (a : String) (so : Bool) (openR : Except PyError WSConn)
    (events : List JObj) :
    (c._ws = none →
      (c.send_audio a so = (c, [], .error (.runtimeError "Not connected")) ∧
       c.send_keepalive so = (c, [], .error (.runtimeError "Not connected")) ∧
       c.listen events = (c, [], .error (.runtimeError "Not connected")))) ∧
    (c._ws.isSome = true →
      c.connect openR so = (c, [], .error (.runtimeError "Already connected"))) := by
  constructor
  · intro h
    refine ⟨?_, ?_, ?_⟩
    · simp [Vox8Client.send_audio, h]
    · simp [Vox8Client.send_keepalive, h]
    · simp [Vox8Client.listen, h]
  · intro h
    simp [Vox8Client.connect, h]

/-- C5 witness: the fresh client rejects the three connection-requiring calls;
the connected client rejects a second `connect`. -/
theorem state_precondition_errors_witness :
    (cKey._ws = none ∧
      (cKey.send_audio "ZGF0YQ==" true =
        (cKey, [], .error (.runtimeError "Not connected")) ∧
       cKey.send_keepalive true =
        (cKey, [], .error (.runtimeError "Not connected")) ∧
       cKey.listen [eReady] =
        (cKey, [], .error (.runtimeError "Not connected")))) ∧
    (cConnected._ws.isSome = true ∧
      cConnected.connect (.ok wsOpen) true =
        (cConnected, [], .error (.runtimeError "Already connected"))) :=
  ⟨⟨rfl, (state_precondition_errors cKey "ZGF0YQ==" true (.ok wsOpen) [eReady]).1 rfl⟩,
   ⟨by decide,
    (state_precondition_errors cConnected "ZGF0YQ==" true (.ok wsOpen) [eReady]).2
      (by decide)⟩⟩

/-- C6: on a connected client, a successful `send_audio a` sends exactly the
single message `{"type": "audio", "audio": a}` and a successful
`send_keepalive` sends exactly the single message `{"type": "keepalive"}`;
neither call modifies the client state. -/
theorem sends_exact_messages (c : Vox8Client) (a : String)
    (h : c.is_connected = true) :
    c.send_audio a true =
      (c, [[("type", JVal.jstr "audio"), ("audio", JVal.jstr a)]], .ok ()) ∧
    c.send_keepalive true =
      (c, [[("type", JVal.jstr "keepalive")]], .ok ()) := by
  obtain ⟨ws, hw⟩ : ∃ ws, c._ws = some ws := by
    unfold Vox8Client.is_connected at h
    cases hw : c._ws with
    | none => rw [hw] at h; exact absurd h (by simp)
    | some ws => exact ⟨ws, rfl⟩
  constructor
  · simp [Vox8Client.send_audio, hw]
  · simp [Vox8Client.send_keepalive, hw]

/-- C6 witness: the connected client, evaluated at the test suite's audio
payload. -/
theorem sends_exact_messages_witness :
    cConnected.is_connected = true ∧
    (cConnected.send_audio "ZGF0YQ==" true =
      (cConnected,
       [[("type", JVal.jstr "audio"), ("audio", JVal.jstr "ZGF0YQ==")]],
       .ok ()) ∧
     cConnected.send_keepalive true =
      (cConnected, [[("type", JVal.jstr "keepalive")]], .ok ())) :=
  ⟨by decide, sends_exact_messages cConnected "ZGF0YQ==" (by decide)⟩

/-- Helper: a remote close never touches `_session_id` and never changes
whether a handle is stored. -/
theorem remoteClose_state (c : Vox8Client) :
    (remoteClose c)._session_id = c._session_id ∧
    (remoteClose c)._ws.isSome = c._ws.isSome := by
  unfold remoteClose
  cases hx : c._ws <;> simp [hx]

/-- C7 counterexample: the claim "in every reachable state, sessionId is
non-null only while isConnected is true (and only after session_ready)" is
false: after connect, a `session_ready` event, and a remote close of the
connection, `_session_id` is still `"abc123"` while `is_connected` reports
false (the handle's transport state is no longer `OPEN`). -/
theorem session_id_only_while_connected_false :
    ¬ (∀ (c : Vox8Client) (f : Bool), Reach c f →
        c.session_id ≠ none → c.is_connected = true ∧ f = true) := by
  intro hclaim
  have h := (hclaim cClosedPeer true reach_cClosedPeer (by decide)).1
  rw [(by decide : cClosedPeer.is_connected = false)] at h
  exact absurd h (by simp)

/-- C7 amended: in every reachable state, a non-null sessionId implies that
the connection handle is non-null (though the transport may no longer report
`OPEN`) and that a `session_ready` event has been received. -/
theorem session_id_requires_handle_and_ready
    (c : Vox8Client) (f : Bool) (h : Reach c f) :
    c.session_id ≠ none → (c._ws.isSome = true ∧ f = true) := by
  induction h with
  | construct tl ak st sl vm url ont ona one c0 hok =>
    obtain ⟨-, rfl⟩ := (init_ok_iff tl ak st sl vm url ont ona one c0).mp hok
    intro hs
    simp [Vox8Client.session_id] at hs
  | connectStep c0 f0 openR so hr ih =>
    intro hs
    rcases connect_state c0 openR so with hc | ⟨hnone, ws, hc⟩
    · rw [hc] at hs ⊢
      exact ih hs
    · rw [hc] at hs ⊢
      refine ⟨rfl, ?_⟩
      exact (ih (by simpa [Vox8Client.session_id] using hs)).2
  | sendAudioStep c0 f0 a so hr ih =>
    rw [send_audio_state c0 a so]
    exact ih
  | keepaliveStep c0 f0 so hr ih =>
    rw [send_keepalive_state c0 so]
    exact ih
  | disconnectStep c0 f0 so co hr ih =>
    intro hs
    rcases disconnect_state c0 so co with hc | hc
    · rw [hc] at hs ⊢
      exact ih hs
    · rw [hc] at hs
      simp [Vox8Client.session_id] at hs
  | recvStep c0 f0 e hr hws ih =>
    intro hs
    rcases handle_event_state c0 e with ⟨hty, hc⟩ | ⟨hty, hc⟩
    · rw [hc] at hs ⊢
      refine ⟨hws, ?_⟩
      simp [hty]
    · rw [hc] at hs ⊢
      refine ⟨(ih hs).1, ?_⟩
      rw [(ih hs).2]
      simp
  | remoteCloseStep c0 f0 hr ih =>
    intro hs
    have hstate := remoteClose_state c0
    have h2 := ih (by simpa [Vox8Client.session_id, hstate.1] using hs)
    rw [hstate.2]
    exact h2

/-- C7 amended witness: the reachable ready state has a handle and the
session-ready flag set. -/
theorem session_id_requires_handle_and_ready_witness :
    cReady.session_id ≠ none ∧ (cReady._ws.isSome = true ∧ true = true) :=
  ⟨by decide,
   session_id_requires_handle_and_ready cReady true reach_cReady (by decide)⟩

/-- C8: when the transport open inside `connect` succeeds but the
`session_start` send raises, the handle remains stored while nothing was sent
and the error propagates; afterwards a second `connect` fails with the
already-connected error, and `send_audio`/`send_keepalive`/`listen` never fail
with the not-connected error. -/
theorem connect_send_failure_keeps_handle
    (c : Vox8Client) (ws : WSConn) (a : String) (so so2 : Bool)
    (openR2 : Except PyError WSConn) (events : List JObj)
    (h : c._ws = none) :
    ((c.connect (.ok ws) false).1._ws = some ws ∧
     (c.connect (.ok ws) false).2.1 = [] ∧
     (c.connect (.ok ws) false).2.2 = .error (.transportError "send failed")) ∧
    ((c.connect (.ok ws) false).1.connect openR2 so2).2.2 =
      .error (.runtimeError "Already connected") ∧
    ((c.connect (.ok ws) false).1.send_audio a so).2.2 ≠
      .error (.runtimeError "Not connected") ∧
    ((c.connect (.ok ws) false).1.send_keepalive so).2.2 ≠
      .error (.runtimeError "Not connected") ∧
    ((c.connect (.ok ws) false).1.listen events).2.2 ≠
      .error (.runtimeError "Not connected") := by
  have hc1 : (c.connect (.ok ws) false).1 = { c with _ws := some ws } := by
    simp [Vox8Client.connect, h]
  refine ⟨⟨?_, ?_, ?_⟩, ?_, ?_, ?_, ?_⟩
  · rw [hc1]
  · simp [Vox8Client.connect, h]
  · simp [Vox8Client.connect, h]
  · rw [hc1]
    simp [Vox8Client.connect]
  · rw [hc1]
    cases so <;> simp [Vox8Client.send_audio]
  · rw [hc1]
    cases so <;> simp [Vox8Client.send_keepalive]
  · rw [hc1]
    simp [Vox8Client.listen]

/-- C8 witness: the fresh test client, with the open succeeding and the
`session_start` send failing. -/
theorem connect_send_failure_keeps_handle_witness :
    cKey._ws = none ∧
    (((cKey.connect (.ok wsOpen) false).1._ws = some wsOpen ∧
      (cKey.connect (.ok wsOpen) false).2.1 = [] ∧
      (cKey.connect (.ok wsOpen) false).2.2 =
        .error (.transportError "send failed")) ∧
     ((cKey.connect (.ok wsOpen) false).1.connect (.ok wsOpen) true).2.2 =
       .error (.runtimeError "Already connected") ∧
     ((cKey.connect (.ok wsOpen) false).1.send_audio "ZGF0YQ==" true).2.2 ≠
       .error (.runtimeError "Not connected") ∧
     ((cKey.connect (.ok wsOpen) false).1.send_keepalive true).2.2 ≠
       .error (.runtimeError "Not connected") ∧
     ((cKey.connect (.ok wsOpen) false).1.listen [eReady]).2.2 ≠
       .error (.runtimeError "Not connected")) :=
  ⟨rfl, connect_send_failure_keeps_handle cKey wsOpen "ZGF0YQ==" true true
     (.ok wsOpen) [eReady] rfl⟩

/-- C9: when the `session_end` send inside `disconnect` raises, `close` is
never invoked, nothing is sent, the handle and sessionId are still cleared,
and the send error propagates to the caller. -/
theorem disconnect_send_failure_skips_close
    (c : Vox8Client) (ws : WSConn) (co : Bool) (h : c._ws = some ws) :
    c.disconnect false co =
      ({ c with _ws := none, _session_id := none }, [], false,
       .error (.transportError "send failed")) := by
  simp [Vox8Client.disconnect, h]

/-- C9 witness: the ready client with a failing `session_end` send. -/
theorem disconnect_send_failure_skips_close_witness :
    cReady._ws = some wsOpen ∧
    cReady.disconnect false true =
      ({ cReady with _ws := none, _session_id := none }, [], false,
       .error (.transportError "send failed")) :=
  ⟨rfl, disconnect_send_failure_skips_close cReady wsOpen true rfl⟩

/-- C10: dispatching a `session_ready` event that lacks a `session_id` field
sets the stored sessionId to null, whatever value (including a non-null one)
was stored before. -/
theorem session_ready_without_id_clears
    (c : Vox8Client) (e : JObj)
    (ht : dictGet e "type" = some (JVal.jstr "session_ready"))
    (hm : dictGet e "session_id" = none) :
    (c.handle_event e).1._session_id = none := by
  simp [Vox8Client.handle_event, ht, hm]

/-- C10 witness: the ready client (holding `"abc123"`) dispatching a
`session_ready` event with no `session_id` field ends with a null sessionId. -/
theorem session_ready_without_id_clears_witness :
    dictGet eReadyNoId "type" = some (JVal.jstr "session_ready") ∧
    dictGet eReadyNoId "session_id" = none ∧
    cReady._session_id = some (JVal.jstr "abc123") ∧
    (cReady.handle_event eReadyNoId).1._session_id = none :=
  ⟨by decide, by decide, by decide,
   session_ready_without_id_clears cReady eReadyNoId (by decide) (by decide)⟩
